import Mathlib

/-!
Verification of the core-analytics enrichment-and-classification pipeline.

This file is a shallow embedding, in Lean 4, of the decision logic of the
repository:

* the V2 rule-waterfall classifier (`src/lib/ai-classifier.js`, second
  document: `isDefinitelyHuman`, `detectAttackTraffic`, the Stage-3
  categorizers, `classifyAsUndetermined`, `classify`,
  `detectSecurityFlags`);
* the ASN / datacenter-provider resolver (`asn-lookup` module:
  `DATACENTER_ASN`, `DATACENTER_PATTERNS`, `initASN`, `lookupASN`);
* the ingestion coordinator's cursor logic (`src/scripts/ingest-logs.js`
  `ingest` together with `db.js` `updateIngestionState`), the CrowdSec
  denylist cache refresh (`refreshBannedIPsCache`), and the subnet-key
  computation of `enrichEvent`.

JavaScript regular-expression tests are translated into executable,
structurally recursive searches over `List Char` (case-insensitive where the
regex carries the `i` flag); JavaScript truthiness of header / string values
(`undefined`, `null` and `""` are falsy) is modelled by `truthy` on
`Option String`.
-/

namespace CoreAnalytics

/-! ## String searching primitives (models of the JS regex tests used) -/

/-- JS truthiness of a possibly-absent string value: `undefined`/`null`/`""`
are falsy, every other string truthy. -/
def truthy : Option String → Bool
  | none => false
  | some s => s ≠ ""

/-- Lower-cased character list of a string (for case-insensitive matching). -/
def lcl (s : String) : List Char := s.data.map Char.toLower

/-- Does `pat` occur at the head of `s`? -/
def listPre : List Char → List Char → Bool
  | [], _ => true
  | _ :: _, [] => false
  | a :: as, b :: bs => a == b && listPre as bs

/-- Does `pat` occur anywhere inside `s`? -/
def listSub (pat : List Char) : List Char → Bool
  | [] => pat.isEmpty
  | b :: bs => listPre pat (b :: bs) || listSub pat bs

/-- Does `pat` occur at the end of `s`? -/
def listSuf (pat s : List Char) : Bool := listPre pat.reverse s.reverse

/-- Case-insensitive substring test: model of `/pat/i.test(s)` for a literal
pattern. -/
def hasSub (pat s : String) : Bool := listSub (lcl pat) (lcl s)

/-- Case-insensitive anchored-at-start test: model of `/^pat/i.test(s)`. -/
def hasPre (pat s : String) : Bool := listPre (lcl pat) (lcl s)

/-- Case-insensitive anchored-at-end test: model of `/pat$/i.test(s)`. -/
def hasSuf (pat s : String) : Bool := listSuf (lcl pat) (lcl s)

/-- Case-sensitive substring test: model of `s.includes(pat)`. -/
def hasSubCS (pat s : String) : Bool := listSub pat.data s.data

/-- Drop everything up to and including the first occurrence of `pat`;
`none` when `pat` does not occur. -/
def dropAfterFirst (pat : List Char) : List Char → Option (List Char)
  | [] => if pat.isEmpty then some [] else none
  | c :: rest =>
      if listPre pat (c :: rest) then some ((c :: rest).drop pat.length)
      else dropAfterFirst pat rest

/-- Model of `/a.*b/i.test(s)`: an occurrence of `a` followed, possibly at a
distance, by an occurrence of `b`. -/
def seqSub (a b s : String) : Bool :=
  match dropAfterFirst (lcl a) (lcl s) with
  | some t => listSub (lcl b) t
  | none => false

/-- Model of `/a.*b.*c/i.test(s)`. -/
def seqSub3 (a b c s : String) : Bool :=
  match dropAfterFirst (lcl a) (lcl s) with
  | some t =>
      match dropAfterFirst (lcl b) t with
      | some u => listSub (lcl c) u
      | none => false
  | none => false

/-- Scan for an occurrence of `pat` that is not immediately followed by
`bad`: model of the negative lookahead `/pat(?!bad)/i`. -/
def scanNotFollowed (pat bad : List Char) : List Char → Bool
  | [] => false
  | c :: rest =>
      (listPre pat (c :: rest) && !listPre (pat ++ bad) (c :: rest))
        || scanNotFollowed pat bad rest

/-- Model of `/pat(?!bad)/i.test(s)`. -/
def subNotFollowed (pat bad s : String) : Bool :=
  scanNotFollowed (lcl pat) (lcl bad) (lcl s)

/-- A regex word character (`\w`): letters, digits, underscore. -/
def isWordChar (c : Char) : Bool := c.isAlphanum || c == '_'

/-- Scan for an occurrence of `pat` delimited by word boundaries, carrying
the previous character to decide the left boundary. -/
def wordScan (pat : List Char) : Option Char → List Char → Bool
  | _, [] => false
  | prev, c :: rest =>
      (listPre pat (c :: rest)
        && (match prev with | none => true | some p => !isWordChar p)
        && (match (c :: rest).drop pat.length with
            | [] => true
            | d :: _ => !isWordChar d))
        || wordScan pat (some c) rest

/-- Model of the word-boundary test `/\bpat\b/i.test(s)` for a pattern that
starts and ends with a word character (all the datacenter keywords do). -/
def wordCI (pat s : String) : Bool := wordScan (lcl pat) none (lcl s)

/-! ## Data model of the classifier -/

/-- The closed category vocabulary of the classifier
(`bot_classification` values produced by the V2 `classify`). -/
inductive BotCategory
  | human
  | ai_official
  | ai_stealth
  | web_crawler
  | monitoring_service
  | bot_undetermined
  | attack_wordpress_scanner
  | attack_webshell_scanner
  | attack_config_scanner
  | attack_exploit_attempt
deriving DecidableEq, Repr

/-- The header fields the V2 classifier reads. A field is `none` when the
header is absent; `some ""` models a present-but-empty header (falsy in JS). -/
structure Headers where
  secFetchSite : Option String := none
  secFetchMode : Option String := none
  secFetchDest : Option String := none
  secFetchUser : Option String := none
  secChUa : Option String := none
  secChUaMobile : Option String := none
  secChUaPlatform : Option String := none
  accept : Option String := none
  xDevTools : Option String := none
  webdriverH : Option String := none
  cfWorker : Option String := none
deriving Repr

/-- Session statistics (`sessionStats`): request count over a trailing
window. `duration_seconds` is rational since the source divides epoch-ms
differences by 1000. -/
structure SessionStats where
  request_count : Nat
  duration_seconds : ℚ

/-- The event fields the V2 classifier reads. -/
structure Event where
  client_ip : String := ""
  user_agent : Option String := none
  path : String := "/"
  headers : Headers := {}
  datacenter_provider : Option String := none
  sessionStats : Option SessionStats := none

/-- A classification result (`is_bot`, `bot_classification`, `bot_name`,
`detection_level`, `detection_reason`). -/
structure Classification where
  is_bot : Bool
  bot_classification : BotCategory
  bot_name : Option String
  detection_level : Option Nat
  detection_reason : Option String
deriving DecidableEq, Repr

/-! ## Stage 1: human detection (`isDefinitelyHuman`, `isHeadlessBrowser`) -/

/-- Rule 1 of the human gate: any fetch-metadata header present
(`Sec-Fetch-Site` / `Sec-Fetch-Mode` / `Sec-Fetch-Dest`). -/
def hasSecFetchHeaders (h : Headers) : Bool :=
  truthy h.secFetchSite || truthy h.secFetchMode || truthy h.secFetchDest

/-- Client-hints family present (`Sec-Ch-Ua` / `-Mobile` / `-Platform`). -/
def hasClientHintsB (h : Headers) : Bool :=
  truthy h.secChUa || truthy h.secChUaMobile || truthy h.secChUaPlatform

/-- `Accept` header present and containing `text/html` (case-sensitive
`includes` in the source). -/
def hasProperAccept (h : Headers) : Bool :=
  match h.accept with
  | none => false
  | some a => a ≠ "" && listSub "text/html".data a.data

/-- The explicit headless/automation user-agent markers of
`isHeadlessBrowser`. -/
def headlessPatternMatch (ua : String) : Bool :=
  hasSub "HeadlessChrome" ua || hasSub "Puppeteer" ua || hasSub "Playwright" ua ||
  hasSub "Selenium" ua || hasSub "PhantomJS" ua || hasSub "SlimerJS" ua ||
  hasSub "electron" ua

/-- `isHeadlessBrowser(userAgent, headers)`: headless markers in the UA, the
DevTools emulation header, or a webdriver indicator. -/
def isHeadlessBrowser (userAgent : Option String) (h : Headers) : Bool :=
  if !truthy userAgent then false
  else
    let ua := userAgent.getD ""
    if headlessPatternMatch ua then true
    else if truthy h.xDevTools then true
    else if truthy h.webdriverH || listSub "webdriver".data ua.data then true
    else false

/-- Rule 5 of the human gate: with session statistics available and a
positive window, fail on a sustained rate above 0.5 requests/second. -/
def rateOK : Option SessionStats → Bool
  | none => true
  | some st =>
      if st.duration_seconds > 0 then
        if (st.request_count : ℚ) / st.duration_seconds > 1/2 then false else true
      else true

/-- Stage 1 (`isDefinitelyHuman`): the five-rule human gate; a request is
human only if every rule passes. -/
def isDefinitelyHuman (e : Event) (h : Headers) (stats : Option SessionStats) : Bool :=
  if !hasSecFetchHeaders h then false
  else if !hasClientHintsB h && !hasProperAccept h then false
  else if truthy e.datacenter_provider then false
  else if isHeadlessBrowser e.user_agent h then false
  else rateOK stats

/-! ## Stage 2: attack traffic (`detectAttackTraffic`) -/

/-- `wordpressPatterns` tested against the request path. -/
def wordpressMatch (path : String) : Bool :=
  hasPre "/wp-admin" path || hasPre "/wp-login" path || hasPre "/wp/" path ||
  hasSub "wp-config" path || hasSub "xmlrpc.php" path ||
  hasSub "wp-json/wp/v2/users" path ||
  hasSub "/wp-content/plugins" path || hasSub "/wp-content/themes" path ||
  hasSub "/wp-includes/" path || hasSub "wp-cron.php" path ||
  hasSuf "readme.html" path || hasSuf "license.txt" path

/-- `webshellPatterns` tested against the request path. -/
def webshellMatch (path : String) : Bool :=
  hasSuf ".php" path || hasSuf ".asp" path || hasSuf ".aspx" path || hasSuf ".jsp" path ||
  hasSub "alfa.php" path || hasSub "c99.php" path || hasSub "shell.php" path ||
  hasSub "cmd.php" path || hasSub "admin.php" path || hasSub "upload.php" path ||
  hasSub "ALFA_DATA" path || hasSub "alfacgiapi" path

/-- `suspiciousTerms.some(term => path.toLowerCase().includes(term))`: the
terms are matched case-sensitively against the lower-cased path (so the
all-caps `ALFA_DATA` entry can never fire, exactly as in the source). -/
def suspiciousTermMatch (path : String) : Bool :=
  let lp := path.data.map Char.toLower
  listSub "alfa".data lp || listSub "c99".data lp || listSub "shell".data lp ||
  listSub "cmd".data lp || listSub "admin/upload".data lp ||
  listSub "ALFA_DATA".data lp || listSub "alfacgiapi".data lp ||
  listSub "lock360".data lp || listSub "function.php".data lp

/-- `configPatterns` tested against the request path. -/
def configMatch (path : String) : Bool :=
  hasSub "/.env" path || hasSub "/config.php" path || hasSub "/config.json" path ||
  hasSub "/config.yml" path || hasSub "/config.yaml" path ||
  hasSub "/.git" path || hasSub "/.svn" path || hasSub "phpmyadmin" path ||
  hasSub "/pma/" path || hasSub "dbadmin" path || hasSub "sqladmin" path ||
  hasSub "mysqladmin" path

/-- `exploitPatterns` tested against the request path (the traversal pattern
carries no `i` flag and is matched case-sensitively). -/
def exploitMatch (path : String) : Bool :=
  listSub "../".data path.data || listSub "..\\".data path.data ||
  hasSub "<script>" path || seqSub "union" "select" path ||
  hasSub "eval(" path || hasSub "base64_decode" path || hasSub "system(" path ||
  hasSub "exec(" path || hasSub "passthru(" path

/-- Stage 2 (`detectAttackTraffic`): ordered attack sub-rules over the
request path; the webshell sub-rule additionally requires a suspicious term,
and on its failure control falls through to the config sub-rule. The source
destructures the event but reads only its `path`. -/
def detectAttackTraffic (path : String) : Option Classification :=
  if wordpressMatch path then
    some { is_bot := true, bot_classification := .attack_wordpress_scanner,
           bot_name := some "WordPress-Scanner", detection_level := some 1,
           detection_reason := some "WordPress vulnerability scanning" }
  else if webshellMatch path && suspiciousTermMatch path then
    some { is_bot := true, bot_classification := .attack_webshell_scanner,
           bot_name := some "WebShell-Scanner", detection_level := some 1,
           detection_reason := some "Web shell / backdoor scanning" }
  else if configMatch path then
    some { is_bot := true, bot_classification := .attack_config_scanner,
           bot_name := some "Config-Scanner", detection_level := some 1,
           detection_reason := some "Configuration file / database scanner" }
  else if exploitMatch path then
    some { is_bot := true, bot_classification := .attack_exploit_attempt,
           bot_name := some "Exploit-Scanner", detection_level := some 1,
           detection_reason := some "Active exploit attempt detected" }
  else none

/-! ## Stage 3: bot-type categorization -/

/-- `OFFICIAL_AI_BOTS`: every entry's regex is its own key tested
case-insensitively. Kept in source order (first match wins). -/
def officialAIBotNames : List String :=
  ["GPTBot", "OAI-SearchBot", "ChatGPT-User", "ClaudeBot", "Claude-Web",
   "Google-Extended", "Gemini-Deep-Research", "GoogleAgent-Mariner",
   "PerplexityBot", "Meta-ExternalAgent", "Meta-ExternalFetcher",
   "Amazonbot", "Applebot-Extended", "Bytespider", "YouBot"]

/-- Stage 3a (`categorizeOfficialAI`). -/
def categorizeOfficialAI (userAgent : Option String) : Option Classification :=
  if !truthy userAgent then none
  else
    match officialAIBotNames.find? (fun n => hasSub n (userAgent.getD "")) with
    | some n =>
        some { is_bot := true, bot_classification := .ai_official,
               bot_name := some n, detection_level := some 1,
               detection_reason := some "Official AI bot declared in User-Agent" }
    | none => none

/-- `WEB_CRAWLERS` table in source order; `Yahoo-Slurp` is `/Yahoo.*Slurp/i`
and `Applebot` is `/Applebot(?!-Extended)/i`. -/
def webCrawlerMatch (ua : String) : Option String :=
  if hasSub "Googlebot" ua then some "Googlebot"
  else if hasSub "bingbot" ua then some "Bingbot"
  else if seqSub "Yahoo" "Slurp" ua then some "Yahoo-Slurp"
  else if hasSub "DuckDuckBot" ua then some "DuckDuckBot"
  else if hasSub "Baiduspider" ua then some "Baiduspider"
  else if hasSub "YandexBot" ua then some "YandexBot"
  else if hasSub "Sogou" ua then some "Sogou"
  else if hasSub "Exabot" ua then some "Exabot"
  else if hasSub "facebookexternalhit" ua then some "facebookexternalhit"
  else if hasSub "Twitterbot" ua then some "Twitterbot"
  else if hasSub "LinkedInBot" ua then some "LinkedInBot"
  else if hasSub "Slackbot" ua then some "Slackbot"
  else if hasSub "Discordbot" ua then some "Discordbot"
  else if hasSub "WhatsApp" ua then some "WhatsApp"
  else if hasSub "TelegramBot" ua then some "TelegramBot"
  else if subNotFollowed "Applebot" "-Extended" ua then some "Applebot"
  else none

/-- The generic bot keyword regex
`/bot|crawler|spider|scraper|curl|wget|python|java|http/i`. -/
def genericBotMatch (ua : String) : Bool :=
  hasSub "bot" ua || hasSub "crawler" ua || hasSub "spider" ua ||
  hasSub "scraper" ua || hasSub "curl" ua || hasSub "wget" ua ||
  hasSub "python" ua || hasSub "java" ua || hasSub "http" ua

/-- Stage 3b (`categorizeWebCrawler`): crawler table, then headless
browsers (with an empty header map), then the generic keyword pattern. -/
def categorizeWebCrawler (userAgent : Option String) : Option Classification :=
  if !truthy userAgent then none
  else
    match webCrawlerMatch (userAgent.getD "") with
    | some n =>
        some { is_bot := true, bot_classification := .web_crawler,
               bot_name := some n, detection_level := some 1,
               detection_reason := some "Traditional web crawler" }
    | none =>
        if isHeadlessBrowser userAgent {} then
          some { is_bot := true, bot_classification := .web_crawler,
                 bot_name := some "Headless-Browser", detection_level := some 1,
                 detection_reason := some "Headless browser automation detected" }
        else if genericBotMatch (userAgent.getD "") then
          some { is_bot := true, bot_classification := .web_crawler,
                 bot_name := some "Generic-Crawler", detection_level := some 1,
                 detection_reason := some "Generic bot/crawler pattern in User-Agent" }
        else none

/-- `MONITORING_SERVICES` table in source order. -/
def monitoringMatch (ua : String) : Option String :=
  if seqSub "Cloudflare" "Verification" ua then some "Cloudflare-Verify"
  else if seqSub "Cloudflare" "Health" ua then some "Cloudflare-Health"
  else if hasSub "UptimeRobot" ua then some "UptimeRobot"
  else if hasSub "Pingdom" ua then some "Pingdom"
  else if hasSub "StatusCake" ua then some "StatusCake"
  else if hasSub "Site24x7" ua then some "Site24x7"
  else if hasSub "Uptime.com" ua then some "Uptime.com"
  else if hasSub "Freshping" ua then some "Freshping"
  else if hasPre "Monitor" ua then some "Monitor"
  else if seqSub "uptime" "check" ua then some "Uptime-Check"
  else if seqSub "availability" "check" ua then some "Availability-Check"
  else none

/-- Upper-cased string (model of `toUpperCase()`). -/
def ucase (s : String) : String := ⟨s.data.map Char.toUpper⟩

/-- The simple-root paths exempted as monitoring targets. -/
def simpleRootPaths : List String :=
  ["/", "/robots.txt", "/favicon.ico", "/index.html", "/sitemap.xml"]

/-- Stage 3c (`categorizeMonitoring`): declared monitoring user-agents, the
Cloudflare hostname-verification check, then the behavioral
datacenter + no-UA + simple-root-path rule. -/
def categorizeMonitoring (e : Event) : Option Classification :=
  match (if truthy e.user_agent then monitoringMatch (e.user_agent.getD "") else none) with
  | some n =>
      some { is_bot := true, bot_classification := .monitoring_service,
             bot_name := some n, detection_level := some 2,
             detection_reason := some "Uptime/monitoring service" }
  | none =>
      if (e.path ≠ "" && hasSubCS ".well-known/cf-custom-hostname-challenge" e.path)
          || (truthy e.user_agent
              && seqSub3 "Cloudflare" "Custom" "Hostname" (e.user_agent.getD "")) then
        some { is_bot := true, bot_classification := .monitoring_service,
               bot_name := some "Cloudflare-Verify", detection_level := some 2,
               detection_reason := some "Cloudflare custom hostname verification" }
      else if truthy e.datacenter_provider && !truthy e.user_agent
          && simpleRootPaths.contains e.path then
        some { is_bot := true, bot_classification := .monitoring_service,
               bot_name := some (ucase (e.datacenter_provider.getD "") ++ "-Monitor"),
               detection_level := some 2,
               detection_reason := some (e.datacenter_provider.getD ""
                 ++ " availability check (no UA, simple path)") }
      else none

/-- Stage 3d (`detectDatacenterCrawler`): datacenter origin, absent or short
user-agent, non-simple path. -/
def detectDatacenterCrawler (e : Event) : Option Classification :=
  if !truthy e.datacenter_provider then none
  else if truthy e.user_agent && (e.user_agent.getD "").length > 50 then none
  else if e.path = "" || simpleRootPaths.contains e.path then none
  else
    some { is_bot := true, bot_classification := .ai_stealth,
           bot_name := some (ucase (e.datacenter_provider.getD "") ++ "-Crawler"),
           detection_level := some 2,
           detection_reason := some (e.datacenter_provider.getD ""
             ++ " datacenter + no UA + content path (systematic crawling)") }

/-- `isBrowserUA` of the V2 classifier: Mozilla token plus one of the major
browser tokens (case-sensitive `includes`). -/
def isBrowserUA (userAgent : Option String) : Bool :=
  if !truthy userAgent then false
  else
    let ua := (userAgent.getD "").data
    listSub "Mozilla".data ua &&
      (listSub "Chrome".data ua || listSub "Safari".data ua ||
       listSub "Firefox".data ua || listSub "Edge".data ua)

/-- Stage 3e (`detectStealthAI`): datacenter origin, browser-like spoofed
user-agent, missing fetch-metadata headers. -/
def detectStealthAI (e : Event) (h : Headers) : Option Classification :=
  if !truthy e.datacenter_provider then none
  else if !isBrowserUA e.user_agent then none
  else if truthy h.secFetchSite || truthy h.secFetchMode || truthy h.secFetchDest then none
  else
    some { is_bot := true, bot_classification := .ai_stealth,
           bot_name := some (ucase (e.datacenter_provider.getD "") ++ "-Stealth-AI"),
           detection_level := some 2,
           detection_reason := some "Datacenter + browser UA + missing Sec-Fetch headers" }

/-! ## Stage 4: fallback (`classifyAsUndetermined`) -/

/-- `determineUndeterminedReason`: concatenation of the applicable
diagnostics, or the generic fallback line when none applies. -/
def determineUndeterminedReason (e : Event) : String :=
  let reasons :=
    (if !truthy e.user_agent then ["No User-Agent"] else []) ++
    (if truthy e.datacenter_provider then
       ["Datacenter: " ++ e.datacenter_provider.getD ""] else []) ++
    (if !truthy e.headers.secFetchSite then ["Missing Sec-Fetch headers"] else [])
  if reasons.isEmpty then "Failed human verification checks"
  else String.intercalate ", " reasons

/-- Stage 4 (`classifyAsUndetermined`). -/
def classifyAsUndetermined (e : Event) : Classification :=
  { is_bot := true, bot_classification := .bot_undetermined,
    bot_name := some "Undetermined-Bot", detection_level := some 3,
    detection_reason := some (determineUndeterminedReason e) }

/-! ## The waterfall (`classify`) -/

/-- The V2 `classify`: Stage 1 human gate, Stage 2 attack detection,
Stages 3a-3e in fixed priority order, Stage 4 fallback. -/
def classify (e : Event) : Classification :=
  if isDefinitelyHuman e e.headers e.sessionStats then
    { is_bot := false, bot_classification := .human, bot_name := none,
      detection_level := none,
      detection_reason := some "Passed all human verification checks" }
  else
    match detectAttackTraffic e.path with
    | some c => c
    | none =>
      match categorizeOfficialAI e.user_agent with
      | some c => c
      | none =>
        match categorizeWebCrawler e.user_agent with
        | some c => c
        | none =>
          match categorizeMonitoring e with
          | some c => c
          | none =>
            match detectDatacenterCrawler e with
            | some c => c
            | none =>
              match detectStealthAI e e.headers with
              | some c => c
              | none => classifyAsUndetermined e

/-! ## Security flags (`detectSecurityFlags`, V2) -/

/-- The security flags attached to an enriched event. -/
structure SecurityFlags where
  has_cf_worker : Bool
  cf_worker_domain : Option String
  is_exploit_attempt : Bool
deriving DecidableEq, Repr

/-- V2 `detectSecurityFlags`: Cf-Worker marker plus the exploit flag
computed by running the Stage-2 attack detector on the path. -/
def detectSecurityFlags (h : Headers) (path : String) : SecurityFlags :=
  { has_cf_worker := truthy h.cfWorker,
    cf_worker_domain := if truthy h.cfWorker then h.cfWorker else none,
    is_exploit_attempt := (detectAttackTraffic path).isSome }

/-! ## Network-origin resolver (`asn-lookup` module) -/

/-- The explicit `DATACENTER_ASN` provider table. -/
def DATACENTER_ASN : Nat → Option String
  | 8075 => some "azure"
  | 15169 => some "gcp"
  | 396982 => some "gcp"
  | 16509 => some "aws"
  | 14618 => some "aws"
  | 13335 => some "cloudflare"
  | 132892 => some "cloudflare"
  | 16276 => some "ovh"
  | 14061 => some "digitalocean"
  | 20473 => some "vultr"
  | 63949 => some "linode"
  | 24940 => some "hetzner"
  | 132203 => some "tencent"
  | 45090 => some "tencent"
  | 45102 => some "alibaba"
  | 37963 => some "alibaba"
  | 136907 => some "huawei"
  | 55967 => some "baidu"
  | 134756 => some "telecom-cloud"
  | 59223 => some "telecom-cloud"
  | 134768 => some "telecom-cloud"
  | 23724 => some "telecom-cloud"
  | 137693 => some "telecom-cloud"
  | 58519 => some "hosting"
  | 199785 => some "hosting"
  | 204916 => some "hosting"
  | 36352 => some "hosting"
  | 18779 => some "hosting"
  | 23576 => some "hosting"
  | 48282 => some "hosting"
  | 51396 => some "hosting"
  | 55286 => some "hosting"
  | 142002 => some "hosting"
  | 198584 => some "hosting"
  | 216071 => some "hosting"
  | 394474 => some "hosting"
  | 9009 => some "hosting"
  | 46261 => some "hosting"
  | 212512 => some "hosting"
  | 11878 => some "hosting"
  | 49505 => some "hosting"
  | 50340 => some "hosting"
  | 26548 => some "hosting"
  | 64267 => some "hosting"
  | _ => none

/-- `DATACENTER_PATTERNS`: the case-insensitive word-boundary keyword
patterns matched against the organization name. -/
def datacenterPatternMatch (org : String) : Bool :=
  wordCI "cloud" org || wordCI "hosting" org || wordCI "server" org ||
  wordCI "datacenter" org || wordCI "data center" org || wordCI "vps" org ||
  wordCI "virtual private server" org || wordCI "compute" org ||
  wordCI "infrastructure" org || wordCI "colocation" org || wordCI "colo" org ||
  wordCI "idc" org || wordCI "cdn" org

/-- The provider resolution of `lookupASN`: explicit ASN table first
(`DATACENTER_ASN[asn] || null`), and only when that yields nothing and the
organization name is truthy, the keyword patterns (yielding the generic
`"hosting"` label). -/
def lookupProvider (asn : Nat) (org : Option String) : Option String :=
  match DATACENTER_ASN asn with
  | some p => some p
  | none =>
    match org with
    | some o => if o ≠ "" && datacenterPatternMatch o then some "hosting" else none
    | none => none

/-- One record of the offline registry dataset: the ASN and (possibly
absent) organization name the MaxMind reader returns for an address. -/
structure ASNRecord where
  asn : Nat
  org : Option String

/-- The result shape of `lookupASN`. -/
structure ASNResult where
  asn : Option Nat
  asn_org : Option String
  datacenter_provider : Option String
deriving DecidableEq, Repr

/-- A loaded registry reader: a lookup from address to record, `none`
modelling the not-found exception (private / malformed / unregistered). -/
abbrev ASNReader : Type := String → Option ASNRecord

/-- `initASN`: a missing dataset file, or a failing open, leaves the reader
unset (the source logs a warning and returns `false`); otherwise the loaded
reader is installed. -/
def initASN (fileExists : Bool) (openOk : Bool) (db : ASNReader) : Option ASNReader :=
  if fileExists then (if openOk then some db else none) else none

/-- `lookupASN`: all-null when no reader is loaded, all-null when the
reader's lookup throws (address not found), otherwise the ASN, organization
and resolved provider. -/
def lookupASN (reader : Option ASNReader) (ip : String) : ASNResult :=
  match reader with
  | none => { asn := none, asn_org := none, datacenter_provider := none }
  | some db =>
    match db ip with
    | none => { asn := none, asn_org := none, datacenter_provider := none }
    | some r => { asn := some r.asn, asn_org := r.org,
                  datacenter_provider := lookupProvider r.asn r.org }

/-! ## Denylist cache (`refreshBannedIPsCache` in `ingest-logs.js`) -/

/-- One CrowdSec decision; `value` carries the banned address. -/
structure Decision where
  value : Option String

/-- The module-level cache: the banned-address set and its refresh time. -/
structure DenylistCache where
  banned : List String
  cacheTime : Nat
deriving DecidableEq, Repr

/-- The cache TTL (one minute, in milliseconds). -/
def CACHE_TTL : Nat := 60000

/-- The outcome of querying the reputation service: an exec/parse failure,
an empty response, or a parsed decision list. -/
abbrev RefreshOutcome : Type := Except String (Option (List Decision))

/-- `refreshBannedIPsCache`: within the TTL the cache is untouched; on a
query or parse failure the catch block keeps the existing cache (fail-open);
an empty response installs an empty set; otherwise the truthy decision
values are installed. Total: a failure never escapes the function. -/
def refreshBannedIPsCache (st : DenylistCache) (now : Nat)
    (result : RefreshOutcome) : DenylistCache :=
  if now - st.cacheTime < CACHE_TTL then st
  else
    match result with
    | .error _ => st
    | .ok none => { banned := [], cacheTime := now }
    | .ok (some ds) =>
        { banned := ds.filterMap (fun d =>
            match d.value with
            | some v => if v ≠ "" then some v else none
            | none => none),
          cacheTime := now }

/-- `isBannedIP`: membership in the cached banned set. -/
def isBannedIP (st : DenylistCache) (ip : String) : Bool :=
  st.banned.contains ip

/-! ## Subnet-key computation (`enrichEvent` in `ingest-logs.js`) -/

/-- Split a character list on a separator character (model of
`str.split(sep)` for a one-character separator). -/
def splitOnChar (sep : Char) : List Char → List (List Char)
  | [] => [[]]
  | x :: xs =>
      let r := splitOnChar sep xs
      if x == sep then [] :: r
      else
        match r with
        | [] => [[x]]
        | y :: ys => (x :: y) :: ys

/-- Join character lists with a separator (model of `parts.join(sep)`). -/
def joinSep (sep : Char) : List (List Char) → List Char
  | [] => []
  | [x] => x
  | x :: xs => x ++ sep :: joinSep sep xs

/-- The subnet computation of `enrichEvent`: for addresses containing `:`,
split on `:`, drop empty parts, and join the first four (or all, when fewer
than four remain) with `::/64` appended; otherwise take the first three
`.`-separated octets with `.0/24` appended (a missing octet renders as the
string `undefined`, as a JS template literal would). -/
def subnetOf (ip : String) : String :=
  if ip.data.contains ':' then
    let parts := (splitOnChar ':' ip.data).filter (fun p => !p.isEmpty)
    if parts.length ≥ 4 then ⟨joinSep ':' (parts.take 4) ++ "::/64".data⟩
    else ⟨joinSep ':' parts ++ "::/64".data⟩
  else
    let parts := splitOnChar '.' ip.data
    let udf := "undefined".data
    ⟨parts.getD 0 udf ++ ['.'] ++ parts.getD 1 udf ++ ['.'] ++ parts.getD 2 udf
      ++ ".0/24".data⟩

/-- Split a character list at the first `::`, returning the pieces before
and after it. -/
def splitOnDoubleColon : List Char → Option (List Char × List Char)
  | [] => none
  | c :: rest =>
      if listPre [':', ':'] (c :: rest) then some ([], rest.drop 1)
      else
        match splitOnDoubleColon rest with
        | some (l, r) => some (c :: l, r)
        | none => none

/-- The eight hextets of an IPv6 address, with a `::` compression expanded
to the zero hextets it stands for. -/
def expandHextets (ip : String) : List (List Char) :=
  match splitOnDoubleColon ip.data with
  | some (l, r) =>
      let ls := (splitOnChar ':' l).filter (fun p => !p.isEmpty)
      let rs := (splitOnChar ':' r).filter (fun p => !p.isEmpty)
      ls ++ List.replicate (8 - ls.length - rs.length) ['0'] ++ rs
  | none => splitOnChar ':' ip.data

/-- The subnet the specification describes for IPv6-style addresses: the
address's true first four hextets (after expanding any `::` compression)
followed by `::/64`. Reference semantics for comparison with `subnetOf`. -/
def specSubnet64 (ip : String) : String :=
  ⟨joinSep ':' ((expandHextets ip).take 4) ++ "::/64".data⟩

/-! ## Ingestion cursor (`ingest` + `updateIngestionState`) -/

/-- What one scheduled ingestion run contributes to the cursor table: the
timestamps of the events it enriched for persistence, and whether the run
reached a successful completion (extraction, every batch insert, and the
state update all succeeding). -/
structure RunData where
  events : List Nat
  persistOk : Bool

/-- The per-event update of `latestTimestamp` inside the ingestion loop:
`if (!latestTimestamp || ts > latestTimestamp) latestTimestamp = ts`. -/
def latestStep (acc : Option Nat) (t : Nat) : Option Nat :=
  match acc with
  | none => some t
  | some cur => if t > cur then some t else some cur

/-- Folding `latestStep` over the run's events, starting from the resumed
cursor timestamp. -/
def foldLatest : Option Nat → List Nat → Option Nat
  | prev, [] => prev
  | prev, t :: rest => foldLatest (latestStep prev t) rest

/-- One ingestion run against the append-only cursor table (most recent row
last): a run with no surviving events appends nothing (the source only calls
`updateIngestionState` when `events.length > 0`); a failed run aborts before
the state update and appends nothing; a successful run appends the folded
latest timestamp. -/
def runIngest (cursors : List Nat) (r : RunData) : List Nat :=
  if r.events.isEmpty then cursors
  else if r.persistOk then
    match foldLatest cursors.getLast? r.events with
    | some t => cursors ++ [t]
    | none => cursors
  else cursors

/-- The cursor table produced by a sequence of runs from an empty table. -/
def cursorAfter (runs : List RunData) : List Nat :=
  runs.foldl runIngest []

/-! ## Helper lemmas: result shapes of the classification stages -/

/-- The four attack categories of Stage 2. -/
def attackCategories : List BotCategory :=
  [.attack_wordpress_scanner, .attack_webshell_scanner,
   .attack_config_scanner, .attack_exploit_attempt]

theorem attack_shape {path : String} {c : Classification}
    (h : detectAttackTraffic path = some c) :
    c.is_bot = true ∧ c.bot_name.isSome = true ∧
    (c.bot_classification = .attack_wordpress_scanner ∨
     c.bot_classification = .attack_webshell_scanner ∨
     c.bot_classification = .attack_config_scanner ∨
     c.bot_classification = .attack_exploit_attempt) := by
  unfold detectAttackTraffic at h
  repeat' split at h
  all_goals first
    | exact Option.noConfusion h
    | (injection h with h; subst h; simp)

theorem officialAI_shape {ua : Option String} {c : Classification}
    (h : categorizeOfficialAI ua = some c) :
    c.is_bot = true ∧ c.bot_name.isSome = true ∧
    c.bot_classification = .ai_official := by
  unfold categorizeOfficialAI at h
  repeat' split at h
  all_goals first
    | exact Option.noConfusion h
    | (injection h with h; subst h; simp)

theorem webCrawler_shape {ua : Option String} {c : Classification}
    (h : categorizeWebCrawler ua = some c) :
    c.is_bot = true ∧ c.bot_name.isSome = true ∧
    c.bot_classification = .web_crawler := by
  unfold categorizeWebCrawler at h
  repeat' split at h
  all_goals first
    | exact Option.noConfusion h
    | (injection h with h; subst h; simp)

theorem monitoring_shape {e : Event} {c : Classification}
    (h : categorizeMonitoring e = some c) :
    c.is_bot = true ∧ c.bot_name.isSome = true ∧
    c.bot_classification = .monitoring_service := by
  unfold categorizeMonitoring at h
  repeat' split at h
  all_goals first
    | exact Option.noConfusion h
    | (injection h with h; subst h; simp)

theorem dcCrawler_shape {e : Event} {c : Classification}
    (h : detectDatacenterCrawler e = some c) :
    c.is_bot = true ∧ c.bot_name.isSome = true ∧
    c.bot_classification = .ai_stealth := by
  unfold detectDatacenterCrawler at h
  repeat' split at h
  all_goals first
    | exact Option.noConfusion h
    | (injection h with h; subst h; simp)

theorem stealth_shape {e : Event} {h0 : Headers} {c : Classification}
    (h : detectStealthAI e h0 = some c) :
    c.is_bot = true ∧ c.bot_name.isSome = true ∧
    c.bot_classification = .ai_stealth := by
  unfold detectStealthAI at h
  repeat' split at h
  all_goals first
    | exact Option.noConfusion h
    | (injection h with h; subst h; simp)

/-- Rule 3 of the human gate: a truthy datacenter provider rules out the
human classification. -/
theorem human_gate_datacenter (e : Event) (h : Headers) (st : Option SessionStats)
    (hdc : truthy e.datacenter_provider = true) :
    isDefinitelyHuman e h st = false := by
  simp only [isDefinitelyHuman, hdc]
  repeat' split
  all_goals first | rfl | simp_all

/-- When the human gate passes, `classify` returns the fixed human result. -/
theorem classify_human_shape (e : Event)
    (h : isDefinitelyHuman e e.headers e.sessionStats = true) :
    classify e =
      { is_bot := false, bot_classification := .human, bot_name := none,
        detection_level := none,
        detection_reason := some "Passed all human verification checks" } := by
  simp only [classify, h, if_true]

/-- When the human gate fails, `classify` returns a bot result: `is_bot`
set, a non-null bot name, and a category other than `human`. -/
theorem classify_not_human_shape (e : Event)
    (h : isDefinitelyHuman e e.headers e.sessionStats = false) :
    (classify e).is_bot = true ∧ (classify e).bot_name.isSome = true ∧
    (classify e).bot_classification ≠ BotCategory.human := by
  simp only [classify, h, Bool.false_eq_true, if_false]
  split
  · next c hA =>
      obtain ⟨h1, h2, h3⟩ := attack_shape hA
      exact ⟨h1, h2, by rcases h3 with h3 | h3 | h3 | h3 <;> simp [h3]⟩
  · split
    · next c hB =>
        obtain ⟨h1, h2, h3⟩ := officialAI_shape hB
        exact ⟨h1, h2, by simp [h3]⟩
    · split
      · next c hC =>
          obtain ⟨h1, h2, h3⟩ := webCrawler_shape hC
          exact ⟨h1, h2, by simp [h3]⟩
      · split
        · next c hD =>
            obtain ⟨h1, h2, h3⟩ := monitoring_shape hD
            exact ⟨h1, h2, by simp [h3]⟩
        · split
          · next c hE =>
              obtain ⟨h1, h2, h3⟩ := dcCrawler_shape hE
              exact ⟨h1, h2, by simp [h3]⟩
          · split
            · next c hF =>
                obtain ⟨h1, h2, h3⟩ := stealth_shape hF
                exact ⟨h1, h2, by simp [h3]⟩
            · exact ⟨rfl, rfl, by simp [classifyAsUndetermined]⟩

/-! ## Claim theorems -/

/-- The closed category vocabulary, as listed in the external-interface
contract. -/
def closedVocabulary : List BotCategory :=
  [.human, .ai_official, .ai_stealth, .web_crawler, .monitoring_service,
   .bot_undetermined, .attack_wordpress_scanner, .attack_webshell_scanner,
   .attack_config_scanner, .attack_exploit_attempt]

/-- C1: for every event, `classify` returns a result (the embedding is a
total function) whose category is one of the ten values of the closed
vocabulary, and the category is never `human` when the event's
`datacenter_provider` is non-null (modelled as JS-truthy: the resolver only
ever produces `null` or a non-empty label). -/
theorem C1_classify_totality (e : Event) :
    (classify e).bot_classification ∈ closedVocabulary ∧
    (truthy e.datacenter_provider = true →
      (classify e).bot_classification ≠ BotCategory.human) := by
  constructor
  · have hall : ∀ b : BotCategory, b ∈ closedVocabulary := by
      intro b; cases b <;> simp [closedVocabulary]
    exact hall _
  · intro hdc
    exact (classify_not_human_shape e
      (human_gate_datacenter e e.headers e.sessionStats hdc)).2.2

/-- A concrete datacenter-origin event for the C1 witness. -/
def evC1w : Event :=
  { client_ip := "20.39.203.102", user_agent := some "GPTBot", path := "/",
    headers := {}, datacenter_provider := some "azure", sessionStats := none }

/-- C1 witness: the datacenter hypothesis holds at `evC1w` and the theorem
yields a non-human category there. -/
theorem C1_witness :
    truthy evC1w.datacenter_provider = true ∧
    (classify evC1w).bot_classification ≠ BotCategory.human :=
  ⟨by decide, (C1_classify_totality evC1w).2 (by decide)⟩

/-- An event whose path fires the Stage-2 attack detector and whose
user-agent matches a declared-AI signature, but which passes the Stage-1
human gate: fetch-metadata and Accept headers present, no datacenter
origin, no headless marker. -/
def evC2bad : Event :=
  { client_ip := "198.51.100.7",
    user_agent := some "Mozilla/5.0 (compatible; GPTBot/1.0; +https://openai.com/gptbot)",
    path := "/wp-admin/setup.php",
    headers := { secFetchSite := some "cross-site", accept := some "text/html" },
    datacenter_provider := none, sessionStats := none }

/-- C2 counterexample: `evC2bad` matches a Stage-2 attack-path pattern and a
Stage-3a declared-AI signature, yet `classify` resolves it to `human` (the
Stage-1 gate never consults the path), not to an attack category. -/
theorem C2_counterexample :
    wordpressMatch evC2bad.path = true ∧
    (detectAttackTraffic evC2bad.path).isSome = true ∧
    (categorizeOfficialAI evC2bad.user_agent).isSome = true ∧
    (classify evC2bad).bot_classification = BotCategory.human ∧
    (classify evC2bad).bot_classification ∉ attackCategories := by
  refine ⟨by decide, by decide, by decide, by decide, by decide⟩

/-- C2 (amended): for every event that fails the Stage-1 human gate, whose
path fires the Stage-2 attack detector, and whose user-agent matches a
declared-AI signature of Stage 3a, `classify` resolves to one of the four
attack categories, never to `ai_official`. -/
theorem C2_stage_order_amended (e : Event)
    (h1 : isDefinitelyHuman e e.headers e.sessionStats = false)
    (h2 : (detectAttackTraffic e.path).isSome = true)
    (_h3 : (categorizeOfficialAI e.user_agent).isSome = true) :
    (classify e).bot_classification ∈ attackCategories ∧
    (classify e).bot_classification ≠ BotCategory.ai_official := by
  rcases Option.isSome_iff_exists.mp h2 with ⟨c, hc⟩
  have hcl : classify e = c := by
    simp only [classify, h1, Bool.false_eq_true, if_false, hc]
  obtain ⟨-, -, h4⟩ := attack_shape hc
  rw [hcl]
  rcases h4 with h4 | h4 | h4 | h4 <;>
    exact ⟨by simp [attackCategories, h4], by simp [h4]⟩

/-- A concrete event failing the human gate with an attack path and a
declared-AI user-agent, for the C2 witness. -/
def evC2w : Event :=
  { client_ip := "198.51.100.8", user_agent := some "GPTBot",
    path := "/wp-admin/setup.php", headers := {},
    datacenter_provider := none, sessionStats := none }

/-- C2 witness: the amended theorem applied at `evC2w`. -/
theorem C2_witness :
    isDefinitelyHuman evC2w evC2w.headers evC2w.sessionStats = false ∧
    (detectAttackTraffic evC2w.path).isSome = true ∧
    (categorizeOfficialAI evC2w.user_agent).isSome = true ∧
    (classify evC2w).bot_classification ∈ attackCategories :=
  ⟨by decide, by decide, by decide,
   (C2_stage_order_amended evC2w (by decide) (by decide) (by decide)).1⟩

/-- C3: every result of `classify` satisfies `is_bot = false` iff the
category is `human`, and carries a null `bot_name` exactly when the
category is `human`. -/
theorem C3_result_shape (e : Event) :
    ((classify e).is_bot = false ↔ (classify e).bot_classification = BotCategory.human) ∧
    ((classify e).bot_name = none ↔ (classify e).bot_classification = BotCategory.human) := by
  cases hgate : isDefinitelyHuman e e.headers e.sessionStats with
  | true => rw [classify_human_shape e hgate]; exact ⟨by simp, by simp⟩
  | false =>
    obtain ⟨h1, h2, h3⟩ := classify_not_human_shape e hgate
    constructor
    · constructor
      · intro hb; rw [h1] at hb; exact Bool.noConfusion hb
      · intro hcat; exact absurd hcat h3
    · constructor
      · intro hn; rw [hn] at h2; exact Bool.noConfusion h2
      · intro hcat; exact absurd hcat h3

/-- C8: the `is_exploit_attempt` flag of `detectSecurityFlags` is true
exactly when the Stage-2 attack detector returns a classification for the
same path, for every header map and path. -/
theorem C8_exploit_flag_consistency (h : Headers) (path : String) :
    ((detectSecurityFlags h path).is_exploit_attempt = true ↔
      ∃ c, detectAttackTraffic path = some c) ∧
    (detectSecurityFlags h path).is_exploit_attempt = (detectAttackTraffic path).isSome := by
  constructor
  · simp [detectSecurityFlags, Option.isSome_iff_exists]
  · rfl

/-- C10: for every event meeting Stage-1 conditions (a)-(d) and every
supplied session aggregate with a zero-length window, `classify` returns
`human` no matter how large the request count is: the rate check is only
evaluated for positive windows. -/
theorem C10_zero_window_rate_vacuous (e : Event) (n : Nat)
    (ha : hasSecFetchHeaders e.headers = true)
    (hb : hasClientHintsB e.headers = true ∨ hasProperAccept e.headers = true)
    (hc : truthy e.datacenter_provider = false)
    (hd : isHeadlessBrowser e.user_agent e.headers = false)
    (hs : e.sessionStats = some { request_count := n, duration_seconds := 0 }) :
    (classify e).bot_classification = BotCategory.human := by
  have hgate : isDefinitelyHuman e e.headers e.sessionStats = true := by
    unfold isDefinitelyHuman
    rw [hs]
    rcases hb with hb | hb <;>
      simp [ha, hb, hc, hd, rateOK]
  rw [classify_human_shape e hgate]

/-- A concrete zero-window, high-count session event for the C10 witness. -/
def evC10w : Event :=
  { client_ip := "203.0.113.9",
    user_agent := some "Mozilla/5.0 (Windows NT 10.0; Win64; x64) Chrome/120.0.0.0 Safari/537.36",
    path := "/",
    headers := { secFetchSite := some "none", secChUa := some "Chromium" },
    datacenter_provider := none,
    sessionStats := some { request_count := 1000000, duration_seconds := 0 } }

/-- C10 witness: a million requests in a zero-second window still classify
as `human`. -/
theorem C10_witness :
    (classify evC10w).bot_classification = BotCategory.human :=
  C10_zero_window_rate_vacuous evC10w 1000000 (by decide) (Or.inl (by decide))
    (by decide) (by decide) rfl

/-! ## Cursor lemmas and claim C4 -/

theorem latestStep_some (p t : Nat) : latestStep (some p) t = some (max p t) := by
  show (if t > p then some t else some p) = some (max p t)
  split
  · next hgt => rw [Nat.max_eq_right (Nat.le_of_lt hgt)]
  · next hle => rw [Nat.max_eq_left (Nat.le_of_not_lt hle)]

theorem foldLatest_some (evts : List Nat) (p : Nat) :
    foldLatest (some p) evts = some (evts.foldl max p) := by
  induction evts generalizing p with
  | nil => rfl
  | cons e es ih =>
      show foldLatest (latestStep (some p) e) es = _
      rw [latestStep_some, ih]
      rfl

theorem foldLatest_nonempty (prev : Option Nat) (evts : List Nat) (h : evts ≠ []) :
    foldLatest prev evts = some (evts.foldl max (prev.getD 0)) := by
  cases prev with
  | some p => simpa using foldLatest_some evts p
  | none =>
    cases evts with
    | nil => exact absurd rfl h
    | cons e es =>
        show foldLatest (some e) es = _
        rw [foldLatest_some]
        simp

theorem le_foldl_max (l : List Nat) (a : Nat) : a ≤ l.foldl max a := by
  induction l generalizing a with
  | nil => exact Nat.le_refl a
  | cons e es ih => exact Nat.le_trans (Nat.le_max_left a e) (ih (max a e))

/-- Appending one run to a non-decreasing cursor table keeps it
non-decreasing. -/
theorem runIngest_chain (cs : List Nat) (r : RunData)
    (h : List.Chain' (· ≤ ·) cs) : List.Chain' (· ≤ ·) (runIngest cs r) := by
  unfold runIngest
  split
  · exact h
  · split
    · split
      · next t hf =>
          rw [List.chain'_append]
          refine ⟨h, List.chain'_singleton t, ?_⟩
          intro x hx y hy
          have hy' : t = y := by simpa using hy
          subst hy'
          have hx' : cs.getLast? = some x := Option.mem_def.mp hx
          rw [hx', foldLatest_some] at hf
          injection hf with hf
          exact hf ▸ le_foldl_max r.events x
      · exact h
    · exact h

theorem cursorAfter_chain_aux (runs : List RunData) (cs : List Nat)
    (h : List.Chain' (· ≤ ·) cs) : List.Chain' (· ≤ ·) (runs.foldl runIngest cs) := by
  induction runs generalizing cs with
  | nil => exact h
  | cons r rs ih => exact ih _ (runIngest_chain cs r h)

/-- C4: across any sequence of runs the appended cursor timestamps are
non-decreasing; a failed run appends no cursor row; and a successful run
with persisted events appends exactly the maximum of the previous cursor
timestamp and the persisted events' timestamps. -/
theorem C4_cursor_monotonicity :
    (∀ runs : List RunData, List.Chain' (· ≤ ·) (cursorAfter runs)) ∧
    (∀ (cs : List Nat) (r : RunData), r.persistOk = false → runIngest cs r = cs) ∧
    (∀ (cs : List Nat) (r : RunData), r.persistOk = true → r.events ≠ [] →
      runIngest cs r = cs ++ [r.events.foldl max ((cs.getLast?).getD 0)]) := by
  refine ⟨?_, ?_, ?_⟩
  · intro runs
    exact cursorAfter_chain_aux runs [] List.chain'_nil
  · intro cs r hok
    simp [runIngest, hok]
  · intro cs r hok hne
    have hEmp : r.events.isEmpty = false := by
      cases h' : r.events with
      | nil => exact absurd h' hne
      | cons a l => rfl
    simp only [runIngest, hEmp, Bool.false_eq_true, if_false, hok, if_true]
    rw [foldLatest_nonempty _ _ hne]

/-- C4 witness: a concrete three-run history (success, failure, success). -/
theorem C4_witness :
    List.Chain' (· ≤ ·) (cursorAfter
      [{ events := [3, 9], persistOk := true },
       { events := [4], persistOk := false },
       { events := [12, 5], persistOk := true }]) ∧
    runIngest [9] { events := [4], persistOk := false } = [9] ∧
    runIngest [9] { events := [12, 5], persistOk := true }
      = [9] ++ [[12, 5].foldl max ((List.getLast? [9]).getD 0)] :=
  ⟨C4_cursor_monotonicity.1 _,
   C4_cursor_monotonicity.2.1 _ _ rfl,
   C4_cursor_monotonicity.2.2 _ _ rfl (by decide)⟩

/-! ## Network-origin claims C5 and C6 -/

/-- C5: when the registry yields an ASN and an organization name, an
explicit provider-table entry for the ASN is always returned (even when the
organization name contains a trigger keyword, since the quantification over
`org` is unrestricted); only without an explicit entry does a keyword match
yield the generic `hosting` label; with neither, the provider is null. -/
theorem C5_provider_precedence (db : ASNReader) (ip : String) (asn : Nat) (org : String)
    (hdb : db ip = some { asn := asn, org := some org }) :
    (∀ p, DATACENTER_ASN asn = some p →
      (lookupASN (some db) ip).datacenter_provider = some p) ∧
    (DATACENTER_ASN asn = none → datacenterPatternMatch org = true →
      (lookupASN (some db) ip).datacenter_provider = some "hosting") ∧
    (DATACENTER_ASN asn = none → datacenterPatternMatch org = false →
      (lookupASN (some db) ip).datacenter_provider = none) := by
  have hres : (lookupASN (some db) ip).datacenter_provider
      = lookupProvider asn (some org) := by
    simp [lookupASN, hdb]
  refine ⟨?_, ?_, ?_⟩
  · intro p hp
    rw [hres]
    simp [lookupProvider, hp]
  · intro hp hpat
    have hne : org ≠ "" := by
      intro he
      rw [he] at hpat
      have hfalse : datacenterPatternMatch "" = false := by decide
      rw [hfalse] at hpat
      exact Bool.noConfusion hpat
    rw [hres]
    simp [lookupProvider, hp, hpat, hne]
  · intro hp hpat
    rw [hres]
    simp [lookupProvider, hp, hpat]

/-- A registry stub mapping every address to Azure's ASN with an
organization name that contains the `cloud` trigger keyword. -/
def dbC5 : ASNReader :=
  fun _ => some { asn := 8075, org := some "Contoso Cloud Services" }

/-- C5 witness: the organization name matches a keyword pattern, yet the
explicit `azure` label wins. -/
theorem C5_witness :
    datacenterPatternMatch "Contoso Cloud Services" = true ∧
    (lookupASN (some dbC5) "20.1.2.3").datacenter_provider = some "azure" :=
  ⟨by decide,
   (C5_provider_precedence dbC5 "20.1.2.3" 8075 "Contoso Cloud Services" rfl).1 "azure" rfl⟩

/-- C6: an unloaded reader, an address the registry cannot resolve, and a
reader left unset by a missing dataset file all yield the all-null result,
with no error raised (the embedding is total). -/
theorem C6_lookup_failure_mode (ip : String) :
    (lookupASN none ip = { asn := none, asn_org := none, datacenter_provider := none }) ∧
    (∀ db : ASNReader, db ip = none →
      lookupASN (some db) ip
        = { asn := none, asn_org := none, datacenter_provider := none }) ∧
    (∀ (openOk : Bool) (db : ASNReader),
      lookupASN (initASN false openOk db) ip
        = { asn := none, asn_org := none, datacenter_provider := none }) := by
  refine ⟨rfl, ?_, ?_⟩
  · intro db hdb
    simp [lookupASN, hdb]
  · intro ok db
    simp [initASN, lookupASN]

/-- C6 witness: a private address under an empty registry and under a reader
never installed because the dataset file is missing. -/
theorem C6_witness :
    lookupASN none "192.168.1.5"
      = { asn := none, asn_org := none, datacenter_provider := none } ∧
    lookupASN (some (fun _ => none)) "192.168.1.5"
      = { asn := none, asn_org := none, datacenter_provider := none } ∧
    lookupASN (initASN false true (fun _ => none)) "192.168.1.5"
      = { asn := none, asn_org := none, datacenter_provider := none } :=
  ⟨(C6_lookup_failure_mode "192.168.1.5").1,
   (C6_lookup_failure_mode "192.168.1.5").2.1 _ rfl,
   (C6_lookup_failure_mode "192.168.1.5").2.2 true _⟩

/-! ## Subnet claim C7 -/

/-- C7: the IPv4 side and the uncompressed IPv6 side behave as claimed, but
on a `::`-compressed address whose compression falls inside the first four
hextets the code's subnet is not the address's true first four hextets: for
`2001:db8::1` the code emits `2001:db8:1::/64` (pulling the interface
identifier hextet `1` into the prefix) while the true first four hextets
give `2001:db8:0:0::/64`. -/
theorem C7_subnet_compressed_bug :
    subnetOf "203.0.113.57" = "203.0.113.0/24" ∧
    subnetOf "2001:db8:1:2:3:4:5:6" = "2001:db8:1:2::/64" ∧
    subnetOf "2001:db8::1" = "2001:db8:1::/64" ∧
    specSubnet64 "2001:db8::1" = "2001:db8:0:0::/64" ∧
    subnetOf "2001:db8::1" ≠ specSubnet64 "2001:db8::1" := by
  refine ⟨by decide, by decide, by decide, by decide, by decide⟩

/-! ## Denylist claim C9 -/

/-- C9: a failed reputation-service refresh leaves the denylist cache
exactly as it was (fail-open): the state, the banned set, and every
subsequent membership check are unchanged, and no error escapes (the
refresh is a total function). -/
theorem C9_denylist_fail_open (st : DenylistCache) (now : Nat) (e : String) :
    refreshBannedIPsCache st now (Except.error e) = st ∧
    (refreshBannedIPsCache st now (Except.error e)).banned = st.banned ∧
    (∀ ip, isBannedIP (refreshBannedIPsCache st now (Except.error e)) ip
      = isBannedIP st ip) := by
  have h : refreshBannedIPsCache st now (Except.error e) = st := by
    unfold refreshBannedIPsCache
    split
    · rfl
    · rfl
  exact ⟨h, by rw [h], fun ip => by rw [h]⟩

end CoreAnalytics
